import Mathlib

/-!
Shallow embedding of `src/nagios/check-aws-rds.py`, a Nagios plugin that
checks an AWS RDS metric against warning/critical thresholds.

The remote AWS calls (boto3) are modelled by an environment record `Env`
holding the response each call would return: either a `ClientError` (the
only exception class the source catches) or the successful payload.
Instance descriptors are opaque pass-through values, modelled as strings.
CloudWatch datapoints carry a timestamp and an `Average`; Python floats
are modelled as rationals.  Each operation returns its result together
with the lines it prints and the remote calls it performs, so that
ordering of output and of network traffic is part of the model.
-/

namespace CheckAwsRds

/-- Nagios status code OK, source line `OK = 0`. -/
def OK : Nat := 0

/-- Nagios status code WARNING, source line `WARNING = 1`. -/
def WARNING : Nat := 1

/-- Nagios status code CRITICAL, source line `CRITICAL = 2`. -/
def CRITICAL : Nat := 2

/-- Nagios status code UNKNOWN, source line `UNKNOWN = 3`. -/
def UNKNOWN : Nat := 3

/-- A provider-side error (`botocore.exceptions.ClientError`), kept as its message text. -/
abbrev ClientError := String

/-- An RDS instance descriptor: an opaque record the program never inspects
field-by-field, modelled as its printed form. -/
abbrev Descriptor := String

/-- One CloudWatch datapoint: a `Timestamp` and an `Average` statistic.
Timestamps are modelled as integers (the code only compares them),
averages as rationals (Python floats are binary rationals). -/
structure Datapoint where
  timestamp : Int
  average : Rat
deriving DecidableEq, Repr

/-- The three remote calls the program can make. -/
inductive RemoteCall where
  | describeInstance
  | listInstances
  | getMetricStatistics
deriving DecidableEq, Repr

/-- Responses the cloud provider would give to each of the three remote calls. -/
structure Env where
  describeIdentResp : Except ClientError (List Descriptor)
  describeAllResp : Except ClientError (List Descriptor)
  metricResp : Except ClientError (List Datapoint)

/-- State of the `RDS` object after `__init__`: region, identifier and the
(optional) descriptor fetched during construction. -/
structure RDSState where
  region : String
  identifier : Option String
  info : Option Descriptor
deriving DecidableEq, Repr

/-- Parsed command-line options, one field per `add_argument` call.
`warn` and `crit` are optional floats (modelled as rationals); absent
means the corresponding threshold never triggers. -/
structure Options where
  list : Bool := false
  profile : Option String := none
  region : String := "us-east-1"
  ident : Option String := none
  printinfo : Bool := false
  metric : Option String := none
  warn : Option Rat := none
  crit : Option Rat := none
deriving DecidableEq, Repr

/-- Python truthiness of an optional string: `None` and the empty string
are falsy, as in the source's `if not options.ident` / `if self.identifier`. -/
def pyTruthy : Option String → Bool
  | none => false
  | some s => !s.isEmpty

/-- Python `str` of an optional string, as used inside f-strings:
`None` prints as `"None"`. -/
def pyStrOpt : Option String → String
  | none => "None"
  | some s => s

/-- Integer rounding with round-half-to-even tie-breaking, the rule Python's
built-in `round` applies to the real number a float denotes. -/
def roundHalfEven (q : Rat) : Int :=
  let f := q.floor
  let r := q - (f : Rat)
  if r < 1/2 then f
  else if 1/2 < r then f + 1
  else if f % 2 = 0 then f else f + 1

/-- Python `round(x, 2)`: round to two decimal places.  Python rounds the
exact rational value the IEEE-754 double denotes; the result here is that
exact rounded decimal. -/
def pyRound2 (q : Rat) : Rat := (roundHalfEven (q * 100) : Rat) / 100

/-- The exact rational value of the IEEE-754 double denoted by the literal
`12.345`: its `as_integer_ratio()` is `(6949617174986097, 562949953421312)`.
It lies strictly above the midpoint `12.345`, so rounding it to two decimal
places gives `12.35` with no tie involved. -/
def float12_345 : Rat := 6949617174986097 / 562949953421312

/-- The descending-by-timestamp comparison used by
`sorted(datapoints, key=lambda x: x['Timestamp'], reverse=True)`:
`a` may come before `b` when `b`'s timestamp is not larger. -/
def tsDesc (a b : Datapoint) : Prop := b.timestamp ≤ a.timestamp

instance : DecidableRel tsDesc := fun a b => inferInstanceAs (Decidable (b.timestamp ≤ a.timestamp))

instance : IsTotal Datapoint tsDesc := ⟨fun a b => le_total b.timestamp a.timestamp⟩

instance : IsTrans Datapoint tsDesc := ⟨fun _ _ _ h h2 => le_trans h2 h⟩

/-- Model of Python's `sorted(datapoints, key=..., reverse=True)`: a stable
sort into descending timestamp order.  Insertion sort with `tsDesc` is
stable: each element is inserted in front of later elements with an equal
timestamp, so ties keep their input order, exactly as Python's stable sort
with `reverse=True` does. -/
def sortDatapoints (l : List Datapoint) : List Datapoint := l.insertionSort tsDesc

/-- The datapoint among `d :: l` that the stable descending sort puts first:
`d` keeps its place unless a later datapoint has a strictly larger timestamp. -/
def firstLatestD (d : Datapoint) : List Datapoint → Datapoint
  | [] => d
  | e :: es =>
      if d.timestamp < (firstLatestD e es).timestamp then firstLatestD e es else d

/-- The datapoint whose average `get_metric` returns: the head of the stable
descending sort, i.e. the first datapoint in input order attaining the
maximal timestamp (proved below as `sortDatapoints_head`). -/
def firstLatest : List Datapoint → Option Datapoint
  | [] => none
  | d :: ds => some (firstLatestD d ds)

/-- Model of `RDS.__init__`: session setup is local; if a (truthy) identifier
is given, the constructor calls `describe_db_instances` remotely.  On success
the source takes `response['DBInstances'][0]` (the provider returns the
matching instance, so the list is non-empty on success; modelled by `head?`);
on `ClientError` it prints the error and leaves `info` unset.  Returns the
object state, the printed lines, and the remote calls made. -/
def rdsInit (region : String) (identifier : Option String) (env : Env) :
    RDSState × List String × List RemoteCall :=
  if pyTruthy identifier then
    match env.describeIdentResp with
    | .ok dbs =>
        ({ region := region, identifier := identifier, info := dbs.head? }, [],
          [RemoteCall.describeInstance])
    | .error e =>
        ({ region := region, identifier := identifier, info := none },
          ["Error retrieving RDS instance: " ++ e], [RemoteCall.describeInstance])
  else
    ({ region := region, identifier := identifier, info := none }, [], [])

/-- Model of `RDS.get_info`: returns the descriptor fetched at construction. -/
def get_info (s : RDSState) : Option Descriptor := s.info

/-- Model of `RDS.get_list`: prints the listing banner, calls
`describe_db_instances`, and returns the dict `{region: DBInstances}`
(an association list with one key) on success, or prints the error and
returns the empty dict on `ClientError`. -/
def get_list (s : RDSState) (env : Env) :
    List (String × List Descriptor) × List String × List RemoteCall :=
  match env.describeAllResp with
  | .ok dbs =>
      ([(s.region, dbs)], ["Listing all RDS instances in region " ++ s.region],
        [RemoteCall.listInstances])
  | .error e =>
      ([], ["Listing all RDS instances in region " ++ s.region,
            "Error listing RDS instances: " ++ e],
        [RemoteCall.listInstances])

/-- Model of `RDS.get_metric`: calls `get_metric_statistics`; on success,
if datapoints were returned, sorts them by timestamp descending (stably)
and returns the first one's average rounded to two decimals; with no
datapoints it prints a notice and returns `None`; on `ClientError` it
prints the error and returns `None`. -/
def get_metric (env : Env) : Option Rat × List String × List RemoteCall :=
  match env.metricResp with
  | .ok datapoints =>
      if datapoints.isEmpty then
        (none, ["No datapoints found for the given metric."], [RemoteCall.getMetricStatistics])
      else
        ((sortDatapoints datapoints).head?.map (fun d => pyRound2 d.average), [],
          [RemoteCall.getMetricStatistics])
  | .error e =>
      (none, ["Error retrieving metric: " ++ e], [RemoteCall.getMetricStatistics])

/-- Whether an optional threshold is set and exceeded:
`options.X is not None and result >= options.X`. -/
def thresholdExceeds (threshold : Option Rat) (result : Rat) : Bool :=
  match threshold with
  | some t => decide (t ≤ result)
  | none => false

/-- The threshold comparison of `main`: critical first, then warning, else OK. -/
def thresholdStatus (warn crit : Option Rat) (result : Rat) : Nat :=
  if thresholdExceeds crit result then CRITICAL
  else if thresholdExceeds warn result then WARNING
  else OK

/-- The status word printed in the final line, matching `thresholdStatus`. -/
def thresholdWord (warn crit : Option Rat) (result : Rat) : String :=
  if thresholdExceeds crit result then "CRITICAL"
  else if thresholdExceeds warn result then "WARNING"
  else "OK"

/-- Exit code of `argparse`'s `parser.error`: it prints a usage message and
terminates the process with status 2 (documented Python argparse behavior). -/
def parserErrorExit : Nat := 2

/-- Rendering of the metric value inside the status line.  Python prints the
float's shortest decimal repr; the embedding does not model decimal
rendering and keeps the exact rational's printed form.  No claim inspects
the numeric text of this line. -/
def floatRepr (q : Rat) : String := toString q

/-- What one invocation observably does: the process exit status, the lines
printed in order, and the remote calls made in order. -/
structure Outcome where
  exitCode : Nat
  output : List String
  calls : List RemoteCall
deriving DecidableEq, Repr

/-- Model of `main` after argument parsing: construct the `RDS` object
(which may already make a remote call), then branch on list mode,
print-info mode, argument validation, and the threshold check, in the
source's order.  `sys.exit()` with no argument exits 0. -/
def main (opts : Options) (env : Env) : Outcome :=
  let initRes := rdsInit opts.region opts.ident env
  let rds := initRes.1
  let initOut := initRes.2.1
  let initCalls := initRes.2.2
  if opts.list then
    let listRes := get_list rds env
    { exitCode := OK,
      output := initOut ++ listRes.2.1 ++
        ["List of all DB instances in " ++ opts.region ++ ":", toString listRes.1],
      calls := initCalls ++ listRes.2.2 }
  else if opts.printinfo then
    { exitCode := OK,
      output := initOut ++
        [match get_info rds with
         | some info => info
         | none => "No DB instance \"" ++ pyStrOpt opts.ident ++ "\" found."],
      calls := initCalls }
  else if !pyTruthy opts.ident then
    { exitCode := parserErrorExit,
      output := initOut ++ ["usage error: DB identifier is not set."],
      calls := initCalls }
  else if !pyTruthy opts.metric then
    { exitCode := parserErrorExit,
      output := initOut ++ ["usage error: Metric is not set."],
      calls := initCalls }
  else
    let metricRes := get_metric env
    match metricRes.1 with
    | none =>
        { exitCode := UNKNOWN,
          output := initOut ++ metricRes.2.1 ++ ["UNKNOWN Unable to get RDS statistics"],
          calls := initCalls ++ metricRes.2.2 }
    | some result =>
        { exitCode := thresholdStatus opts.warn opts.crit result,
          output := initOut ++ metricRes.2.1 ++
            [pyStrOpt opts.ident ++ " " ++ pyStrOpt opts.metric ++ ": " ++
              thresholdWord opts.warn opts.crit result ++ " " ++ floatRepr result ++ "%"],
          calls := initCalls ++ metricRes.2.2 }

/-! ### Properties of the stable descending sort and of datapoint selection -/

/-- Head of an ordered insert into a list with head `b`: the inserted element
wins unless `b` has a strictly larger timestamp (ties keep the inserted
element first). -/
lemma orderedInsert_head_some (d : Datapoint) (s : List Datapoint) (b : Datapoint)
    (h : s.head? = some b) :
    (List.orderedInsert tsDesc d s).head? =
      some (if d.timestamp < b.timestamp then b else d) := by
  cases s with
  | nil => cases h
  | cons c t =>
      rw [List.head?_cons] at h
      cases h
      by_cases hdc : tsDesc d b
      · simp only [List.orderedInsert, if_pos hdc, List.head?_cons]
        rw [if_neg (not_lt.mpr hdc)]
      · simp only [List.orderedInsert, if_neg hdc, List.head?_cons]
        rw [if_pos (not_le.mp hdc)]

/-- The head of the stable descending sort is the first datapoint in input
order attaining the maximal timestamp. -/
lemma sortDatapoints_head (l : List Datapoint) :
    (sortDatapoints l).head? = firstLatest l := by
  induction l with
  | nil => rfl
  | cons d ds ih =>
      cases ds with
      | nil => rfl
      | cons e es =>
          unfold sortDatapoints at ih ⊢
          rw [List.insertionSort]
          rw [orderedInsert_head_some d _ (firstLatestD e es) ih]
          rw [firstLatest, firstLatestD]

/-- The datapoint selected by `firstLatestD` is one of the inputs. -/
lemma firstLatestD_mem (d : Datapoint) (l : List Datapoint) :
    firstLatestD d l ∈ d :: l := by
  induction l generalizing d with
  | nil =>
      rw [firstLatestD]
      exact List.mem_cons_self _ _
  | cons e es ih =>
      rw [firstLatestD]
      by_cases h : d.timestamp < (firstLatestD e es).timestamp
      · rw [if_pos h]
        exact List.mem_cons_of_mem _ (ih e)
      · rw [if_neg h]
        exact List.mem_cons_self _ _

/-- When a single datapoint `d` strictly dominates every other one,
`firstLatestD` selects it, wherever it sits in the list. -/
lemma firstLatestD_uniqueMax {d : Datapoint} {a : Datapoint} {l : List Datapoint}
    (hd : d ∈ a :: l) (hmax : ∀ e ∈ a :: l, e = d ∨ e.timestamp < d.timestamp) :
    firstLatestD a l = d := by
  induction l generalizing a with
  | nil =>
      rw [firstLatestD]
      rcases List.mem_cons.mp hd with h | h
      · exact h.symm
      · cases h
  | cons e es ih =>
      rw [firstLatestD]
      by_cases had : a = d
      · subst had
        have hb := firstLatestD_mem e es
        have hnb : ¬ a.timestamp < (firstLatestD e es).timestamp := by
          rcases hmax _ (List.mem_cons_of_mem _ hb) with h | h
          · rw [h]
            exact lt_irrefl _
          · exact not_lt.mpr h.le
        rw [if_neg hnb]
      · have hde : d ∈ e :: es := by
          rcases List.mem_cons.mp hd with h | h
          · exact absurd h.symm had
          · exact h
        have hats : a.timestamp < d.timestamp :=
          (hmax a (List.mem_cons_self _ _)).resolve_left had
        rw [ih hde (fun x hx => hmax x (List.mem_cons_of_mem _ hx)), if_pos hats]

/-- When no later datapoint strictly exceeds `d`'s timestamp, `d` keeps its
place (ties included): the stable sort keeps the earlier element first. -/
lemma firstLatestD_consMax {d : Datapoint} {l : List Datapoint}
    (h : ∀ e ∈ l, e.timestamp ≤ d.timestamp) : firstLatestD d l = d := by
  cases l with
  | nil => rw [firstLatestD]
  | cons e es =>
      rw [firstLatestD]
      exact if_neg (not_lt.mpr (h _ (firstLatestD_mem e es)))

/-- The first datapoint in input order attaining the maximal timestamp is the
one `firstLatestD` selects. -/
lemma firstLatestD_firstMax {d : Datapoint} {l₂ : List Datapoint}
    (hmax : ∀ e ∈ l₂, e.timestamp ≤ d.timestamp) :
    ∀ (a : Datapoint) (l₁ : List Datapoint), a.timestamp < d.timestamp →
      (∀ e ∈ l₁, e.timestamp < d.timestamp) →
      firstLatestD a (l₁ ++ d :: l₂) = d := by
  intro a l₁
  induction l₁ generalizing a with
  | nil =>
      intro ha _
      rw [List.nil_append, firstLatestD, firstLatestD_consMax hmax]
      exact if_pos ha
  | cons e es ih =>
      intro ha hbefore
      rw [List.cons_append, firstLatestD,
        ih e (hbefore e (List.mem_cons_self _ _))
          (fun x hx => hbefore x (List.mem_cons_of_mem _ hx))]
      exact if_pos ha

/-- `firstLatest` on a list whose unique strictly-maximal-timestamp datapoint
is `d` returns `d`. -/
lemma firstLatest_uniqueMax {l : List Datapoint} {d : Datapoint} (hd : d ∈ l)
    (hmax : ∀ e ∈ l, e = d ∨ e.timestamp < d.timestamp) : firstLatest l = some d := by
  cases l with
  | nil => cases hd
  | cons a as =>
      rw [firstLatest]
      exact congrArg some (firstLatestD_uniqueMax hd hmax)

/-- `firstLatest` on `l₁ ++ d :: l₂` returns `d` when `d` is the first
datapoint attaining the maximal timestamp. -/
lemma firstLatest_firstMax (l₁ l₂ : List Datapoint) (d : Datapoint)
    (hmax : ∀ e ∈ l₂, e.timestamp ≤ d.timestamp)
    (hbefore : ∀ e ∈ l₁, e.timestamp < d.timestamp) :
    firstLatest (l₁ ++ d :: l₂) = some d := by
  cases l₁ with
  | nil =>
      rw [List.nil_append, firstLatest]
      exact congrArg some (firstLatestD_consMax hmax)
  | cons a as =>
      rw [List.cons_append, firstLatest]
      exact congrArg some
        (firstLatestD_firstMax hmax a as (hbefore a (List.mem_cons_self _ _))
          (fun x hx => hbefore x (List.mem_cons_of_mem _ hx)))

/-- On a successful metric call with a non-empty datapoint list, `get_metric`
returns the rounded average of the first datapoint attaining the maximal
timestamp. -/
lemma get_metric_ok (env : Env) (l : List Datapoint)
    (h : env.metricResp = .ok l) (hne : l ≠ []) :
    (get_metric env).1 = (firstLatest l).map (fun d => pyRound2 d.average) := by
  unfold get_metric
  rw [h]
  have hempty : l.isEmpty = false := by
    cases l with
    | nil => exact absurd rfl hne
    | cons a as => rfl
  simp only [hempty, Bool.false_eq_true, if_false, sortDatapoints_head]

/-- A successful metric call returning no datapoints yields `None`. -/
lemma get_metric_empty (env : Env) (h : env.metricResp = .ok []) :
    (get_metric env).1 = none := by
  unfold get_metric
  rw [h]
  rfl

/-- A failed metric call yields `None`. -/
lemma get_metric_error (env : Env) (e : ClientError) (h : env.metricResp = .error e) :
    (get_metric env).1 = none := by
  unfold get_metric
  rw [h]

/-! ### Branch behavior of `main` -/

/-- The threshold comparison can only produce the three alert statuses. -/
lemma thresholdStatus_cases (w c : Option Rat) (v : Rat) :
    thresholdStatus w c v = OK ∨ thresholdStatus w c v = WARNING ∨
      thresholdStatus w c v = CRITICAL := by
  unfold thresholdStatus
  split
  · exact Or.inr (Or.inr rfl)
  · split
    · exact Or.inr (Or.inl rfl)
    · exact Or.inl rfl

/-- With the list flag set, `main` runs list mode and exits 0, whatever the
other flags are. -/
lemma main_list_eq (opts : Options) (env : Env) (h : opts.list = true) :
    main opts env =
      { exitCode := OK,
        output := (rdsInit opts.region opts.ident env).2.1 ++
          (get_list (rdsInit opts.region opts.ident env).1 env).2.1 ++
          ["List of all DB instances in " ++ opts.region ++ ":",
            toString (get_list (rdsInit opts.region opts.ident env).1 env).1],
        calls := (rdsInit opts.region opts.ident env).2.2 ++
          (get_list (rdsInit opts.region opts.ident env).1 env).2.2 } := by
  unfold main
  simp only [h, if_true]

/-- With the list flag clear and the print-info flag set, `main` runs info
mode and exits 0. -/
lemma main_info_eq (opts : Options) (env : Env)
    (hl : opts.list = false) (hp : opts.printinfo = true) :
    main opts env =
      { exitCode := OK,
        output := (rdsInit opts.region opts.ident env).2.1 ++
          [match get_info (rdsInit opts.region opts.ident env).1 with
           | some info => info
           | none => "No DB instance \"" ++ pyStrOpt opts.ident ++ "\" found."],
        calls := (rdsInit opts.region opts.ident env).2.2 } := by
  unfold main
  simp only [hl, hp, Bool.false_eq_true, if_false, if_true]

/-- With neither mode flag set and a falsy identifier, `main` stops with the
usage error of `parser.error`. -/
lemma main_noident_eq (opts : Options) (env : Env)
    (hl : opts.list = false) (hp : opts.printinfo = false)
    (hi : pyTruthy opts.ident = false) :
    main opts env =
      { exitCode := parserErrorExit,
        output := (rdsInit opts.region opts.ident env).2.1 ++
          ["usage error: DB identifier is not set."],
        calls := (rdsInit opts.region opts.ident env).2.2 } := by
  unfold main
  simp only [hl, hp, hi, Bool.false_eq_true, if_false, Bool.not_false, if_true]

/-- With neither mode flag set, a truthy identifier and a falsy metric,
`main` stops with the usage error of `parser.error`. -/
lemma main_nometric_eq (opts : Options) (env : Env)
    (hl : opts.list = false) (hp : opts.printinfo = false)
    (hi : pyTruthy opts.ident = true) (hm : pyTruthy opts.metric = false) :
    main opts env =
      { exitCode := parserErrorExit,
        output := (rdsInit opts.region opts.ident env).2.1 ++
          ["usage error: Metric is not set."],
        calls := (rdsInit opts.region opts.ident env).2.2 } := by
  unfold main
  simp only [hl, hp, hi, hm, Bool.false_eq_true, if_false, Bool.not_true,
    Bool.not_false, if_true]

/-- In check mode, when the metric fetch yields no value, `main` prints the
UNKNOWN line and exits 3. -/
lemma main_check_none_eq (opts : Options) (env : Env)
    (hl : opts.list = false) (hp : opts.printinfo = false)
    (hi : pyTruthy opts.ident = true) (hm : pyTruthy opts.metric = true)
    (hv : (get_metric env).1 = none) :
    main opts env =
      { exitCode := UNKNOWN,
        output := (rdsInit opts.region opts.ident env).2.1 ++ (get_metric env).2.1 ++
          ["UNKNOWN Unable to get RDS statistics"],
        calls := (rdsInit opts.region opts.ident env).2.2 ++ (get_metric env).2.2 } := by
  unfold main
  simp only [hl, hp, hi, hm, hv, Bool.false_eq_true, if_false, Bool.not_true,
    Bool.not_false, if_true]

/-- In check mode, when the metric fetch yields a value, `main` prints the
status line and exits with the threshold comparison's status. -/
lemma main_check_some_eq (opts : Options) (env : Env) (v : Rat)
    (hl : opts.list = false) (hp : opts.printinfo = false)
    (hi : pyTruthy opts.ident = true) (hm : pyTruthy opts.metric = true)
    (hv : (get_metric env).1 = some v) :
    main opts env =
      { exitCode := thresholdStatus opts.warn opts.crit v,
        output := (rdsInit opts.region opts.ident env).2.1 ++ (get_metric env).2.1 ++
          [pyStrOpt opts.ident ++ " " ++ pyStrOpt opts.metric ++ ": " ++
            thresholdWord opts.warn opts.crit v ++ " " ++ floatRepr v ++ "%"],
        calls := (rdsInit opts.region opts.ident env).2.2 ++ (get_metric env).2.2 } := by
  unfold main
  simp only [hl, hp, hi, hm, hv, Bool.false_eq_true, if_false, Bool.not_true,
    Bool.not_false, if_true]

/-- Every run terminates with one of the four Nagios codes (the usage-error
exit 2 coincides with CRITICAL). -/
lemma main_exit_defined (opts : Options) (env : Env) :
    (main opts env).exitCode = OK ∨ (main opts env).exitCode = WARNING ∨
      (main opts env).exitCode = CRITICAL ∨ (main opts env).exitCode = UNKNOWN := by
  by_cases hl : opts.list = true
  · rw [main_list_eq opts env hl]
    exact Or.inl rfl
  · have hl' : opts.list = false := by
      cases h : opts.list
      · rfl
      · exact absurd h hl
    by_cases hp : opts.printinfo = true
    · rw [main_info_eq opts env hl' hp]
      exact Or.inl rfl
    · have hp' : opts.printinfo = false := by
        cases h : opts.printinfo
        · rfl
        · exact absurd h hp
      by_cases hi : pyTruthy opts.ident = true
      · by_cases hm : pyTruthy opts.metric = true
        · cases hv : (get_metric env).1 with
          | none =>
              rw [main_check_none_eq opts env hl' hp' hi hm hv]
              exact Or.inr (Or.inr (Or.inr rfl))
          | some v =>
              rw [main_check_some_eq opts env v hl' hp' hi hm hv]
              rcases thresholdStatus_cases opts.warn opts.crit v with h | h | h
              · exact Or.inl h
              · exact Or.inr (Or.inl h)
              · exact Or.inr (Or.inr (Or.inl h))
        · have hm' : pyTruthy opts.metric = false := by
            cases h : pyTruthy opts.metric
            · rfl
            · exact absurd h hm
          rw [main_nometric_eq opts env hl' hp' hi hm']
          exact Or.inr (Or.inr (Or.inl rfl))
      · have hi' : pyTruthy opts.ident = false := by
          cases h : pyTruthy opts.ident
          · rfl
          · exact absurd h hi
        rw [main_noident_eq opts env hl' hp' hi']
        exact Or.inr (Or.inr (Or.inl rfl))

/-- With a truthy identifier, construction always performs exactly the
describe-instance remote call, whatever the provider answers. -/
lemma rdsInit_calls_truthy (region : String) (identifier : Option String) (env : Env)
    (h : pyTruthy identifier = true) :
    (rdsInit region identifier env).2.2 = [RemoteCall.describeInstance] := by
  unfold rdsInit
  rw [h]
  cases env.describeIdentResp <;> simp

/-- With a falsy identifier, construction is local: no output, no remote call. -/
lemma rdsInit_falsy (region : String) (identifier : Option String) (env : Env)
    (h : pyTruthy identifier = false) :
    rdsInit region identifier env =
      ({ region := region, identifier := identifier, info := none }, [], []) := by
  unfold rdsInit
  rw [h]
  simp

/-- A failing describe-instance call is logged and leaves `info` unset. -/
lemma rdsInit_error (region : String) (identifier : Option String) (env : Env)
    (e : ClientError) (h : pyTruthy identifier = true)
    (he : env.describeIdentResp = .error e) :
    rdsInit region identifier env =
      ({ region := region, identifier := identifier, info := none },
        ["Error retrieving RDS instance: " ++ e], [RemoteCall.describeInstance]) := by
  unfold rdsInit
  rw [h, he]
  simp

/-- A successful describe-instance call stores the first returned descriptor. -/
lemma rdsInit_ok (region : String) (identifier : Option String) (env : Env)
    (dbs : List Descriptor) (h : pyTruthy identifier = true)
    (he : env.describeIdentResp = .ok dbs) :
    rdsInit region identifier env =
      ({ region := region, identifier := identifier, info := dbs.head? }, [],
        [RemoteCall.describeInstance]) := by
  unfold rdsInit
  rw [h, he]
  simp

/-! ### Concrete fixtures used to instantiate the theorems -/

/-- Check-mode options: `-i db1 -m CPUUtilization -w 70 -c 90`. -/
def optsCheck : Options :=
  { ident := some "db1", metric := some "CPUUtilization", warn := some 70, crit := some 90 }

/-- Options with an identifier but no metric: `-i db1`. -/
def optsNoMetric : Options := { ident := some "db1" }

/-- Options with no identifier and no metric at all. -/
def optsBare : Options := {}

/-- List-mode options: `-l -i db1 -m CPUUtilization`. -/
def optsList : Options := { list := true, ident := some "db1", metric := some "CPUUtilization" }

/-- Info-mode options: `-p -i db1`. -/
def optsInfo : Options := { printinfo := true, ident := some "db1" }

/-- An environment whose calls all succeed, with one datapoint of average 92
at timestamp 3. -/
def envSample : Env :=
  { describeIdentResp := .ok ["db1-descriptor"],
    describeAllResp := .ok ["db1-descriptor", "db2-descriptor"],
    metricResp := .ok [{ timestamp := 3, average := 92 }] }

/-- An environment whose metric call returns no datapoints. -/
def envNoData : Env :=
  { describeIdentResp := .ok ["db1-descriptor"],
    describeAllResp := .ok [],
    metricResp := .ok [] }

/-- An environment whose three calls all fail. -/
def envErr : Env :=
  { describeIdentResp := .error "AccessDenied",
    describeAllResp := .error "AccessDenied",
    metricResp := .error "AccessDenied" }

/-- Two datapoints sharing the maximal timestamp, in one order... -/
def envTieA : Env :=
  { describeIdentResp := .ok [],
    describeAllResp := .ok [],
    metricResp := .ok [{ timestamp := 1, average := 10 }, { timestamp := 1, average := 20 }] }

/-- ...and the same two datapoints in the other order. -/
def envTieB : Env :=
  { describeIdentResp := .ok [],
    describeAllResp := .ok [],
    metricResp := .ok [{ timestamp := 1, average := 20 }, { timestamp := 1, average := 10 }] }

/-- A tied-maximum list with an older datapoint in front: timestamps 0, 1, 1. -/
def envC9 : Env :=
  { describeIdentResp := .ok [],
    describeAllResp := .ok [],
    metricResp := .ok [{ timestamp := 0, average := 5 },
      { timestamp := 1, average := 10 }, { timestamp := 1, average := 20 }] }

/-- An environment whose single datapoint's average is the double `12.345`. -/
def envF12345 : Env :=
  { describeIdentResp := .ok [],
    describeAllResp := .ok [],
    metricResp := .ok [{ timestamp := 0, average := float12_345 }] }

/-- On the tied-timestamp list in first order, the first datapoint's average
(10) is returned. -/
lemma get_metric_envTieA : (get_metric envTieA).1 = some 10 := by
  norm_num [get_metric, envTieA, sortDatapoints, tsDesc, pyRound2, roundHalfEven, Rat.floor]

/-- On the tied-timestamp list in the other order, the other average (20) is
returned. -/
lemma get_metric_envTieB : (get_metric envTieB).1 = some 20 := by
  norm_num [get_metric, envTieB, sortDatapoints, tsDesc, pyRound2, roundHalfEven, Rat.floor]

/-- The two orderings of the same tied-timestamp datapoints give different
results. -/
lemma get_metric_tie_ne : (get_metric envTieA).1 ≠ (get_metric envTieB).1 := by
  rw [get_metric_envTieA, get_metric_envTieB]
  intro h
  rw [Option.some.injEq] at h
  norm_num at h

/-! ### Claim theorems -/

/-- C1: in threshold-check mode, once a metric value is obtained, the program
compares in fixed priority: critical first (value ≥ critical → CRITICAL,
exit 2), then warning (value ≥ warning → WARNING, exit 1), else OK (exit 0);
with both thresholds unset the outcome is OK for every value, and whenever
critical ≤ warning ≤ value the outcome is CRITICAL. -/
theorem check_threshold_priority (opts : Options) (env : Env) (v : Rat)
    (hl : opts.list = false) (hp : opts.printinfo = false)
    (hi : pyTruthy opts.ident = true) (hm : pyTruthy opts.metric = true)
    (hv : (get_metric env).1 = some v) :
    ((main opts env).exitCode = thresholdStatus opts.warn opts.crit v)
  ∧ (∀ c, opts.crit = some c → c ≤ v → thresholdStatus opts.warn opts.crit v = CRITICAL)
  ∧ (∀ w, opts.warn = some w → thresholdExceeds opts.crit v = false → w ≤ v →
      thresholdStatus opts.warn opts.crit v = WARNING)
  ∧ (thresholdExceeds opts.crit v = false → thresholdExceeds opts.warn v = false →
      thresholdStatus opts.warn opts.crit v = OK)
  ∧ (opts.warn = none → opts.crit = none → thresholdStatus opts.warn opts.crit v = OK)
  ∧ (∀ c w, opts.crit = some c → opts.warn = some w → c ≤ w → w ≤ v →
      thresholdStatus opts.warn opts.crit v = CRITICAL) := by
  have hmain := main_check_some_eq opts env v hl hp hi hm hv
  refine ⟨?_, ?_, ?_, ?_, ?_, ?_⟩
  · rw [hmain]
  · intro c hc hcv
    have he : thresholdExceeds opts.crit v = true := by
      rw [hc]
      exact decide_eq_true hcv
    simp [thresholdStatus, he]
  · intro w hw hcrit hwv
    have he : thresholdExceeds opts.warn v = true := by
      rw [hw]
      exact decide_eq_true hwv
    simp [thresholdStatus, hcrit, he]
  · intro h1 h2
    simp [thresholdStatus, h1, h2]
  · intro hw hc
    simp [thresholdStatus, thresholdExceeds, hw, hc]
  · intro c w hc hw hcw hwv
    have he : thresholdExceeds opts.crit v = true := by
      rw [hc]
      exact decide_eq_true (le_trans hcw hwv)
    simp [thresholdStatus, he]

/-- C1 witness: with `-w 70 -c 90` and a fetched value of 92, the outcome is
CRITICAL. -/
theorem check_threshold_priority_witness :
    ((get_metric envSample).1 = some 92)
  ∧ ((main optsCheck envSample).exitCode = CRITICAL) := by
  have hv : (get_metric envSample).1 = some 92 := by
    norm_num [get_metric, envSample, sortDatapoints, pyRound2, roundHalfEven, Rat.floor]
  refine ⟨hv, ?_⟩
  have h := check_threshold_priority optsCheck envSample 92 rfl rfl rfl rfl hv
  rw [h.1]
  exact h.2.1 90 rfl (by norm_num)

/-- C2 counterexample: with an identifier supplied but no metric, the usage
error does happen (exit 2), yet the describe-instance remote call has already
been made, so "no network call attempted" is false. -/
theorem missing_metric_network_call_counterexample :
    ((main optsNoMetric envSample).exitCode = parserErrorExit)
  ∧ ((main optsNoMetric envSample).calls = [RemoteCall.describeInstance])
  ∧ ((main optsNoMetric envSample).calls ≠ []) := by
  have h := main_nometric_eq optsNoMetric envSample rfl rfl rfl rfl
  have hc : (rdsInit optsNoMetric.region optsNoMetric.ident envSample).2.2 =
      [RemoteCall.describeInstance] := rdsInit_calls_truthy _ _ _ rfl
  refine ⟨?_, ?_, ?_⟩
  · rw [h]
  · rw [h]
    exact hc
  · rw [h]
    show (rdsInit optsNoMetric.region optsNoMetric.ident envSample).2.2 ≠ []
    rw [hc]
    simp

/-- C2 as amended: invoking check mode without a metric exits with argparse's
usage error (code 2) and never reaches the metric or listing calls; but when
an identifier was supplied the constructor's describe-instance remote call
has already happened, and only when the identifier is also absent is no
remote call made at all. -/
theorem usage_error_missing_metric (opts : Options) (env : Env)
    (hl : opts.list = false) (hp : opts.printinfo = false)
    (hi : pyTruthy opts.ident = true) (hm : pyTruthy opts.metric = false) :
    ((main opts env).exitCode = parserErrorExit)
  ∧ ((main opts env).calls = [RemoteCall.describeInstance])
  ∧ (RemoteCall.getMetricStatistics ∉ (main opts env).calls)
  ∧ (RemoteCall.listInstances ∉ (main opts env).calls)
  ∧ (∀ (opts2 : Options) (env2 : Env), opts2.list = false → opts2.printinfo = false →
      pyTruthy opts2.ident = false →
      (main opts2 env2).exitCode = parserErrorExit ∧ (main opts2 env2).calls = []) := by
  have h := main_nometric_eq opts env hl hp hi hm
  have hc : (rdsInit opts.region opts.ident env).2.2 = [RemoteCall.describeInstance] :=
    rdsInit_calls_truthy _ _ _ hi
  refine ⟨?_, ?_, ?_, ?_, ?_⟩
  · rw [h]
  · rw [h]
    exact hc
  · simp [h, hc]
  · simp [h, hc]
  · intro opts2 env2 hl2 hp2 hi2
    have h2 := main_noident_eq opts2 env2 hl2 hp2 hi2
    have hf := rdsInit_falsy opts2.region opts2.ident env2 hi2
    constructor
    · rw [h2]
    · rw [h2]
      show (rdsInit opts2.region opts2.ident env2).2.2 = []
      rw [hf]

/-- C2 witness: `-i db1` without `-m` exits 2 after one describe call. -/
theorem usage_error_missing_metric_witness :
    (pyTruthy optsNoMetric.ident = true) ∧ (pyTruthy optsNoMetric.metric = false)
  ∧ ((main optsNoMetric envNoData).exitCode = parserErrorExit)
  ∧ ((main optsNoMetric envNoData).calls = [RemoteCall.describeInstance]) := by
  have h := usage_error_missing_metric optsNoMetric envNoData rfl rfl rfl rfl
  exact ⟨rfl, rfl, h.1, h.2.1⟩

/-- C3 counterexample: two permutations of the same samples with a tied
maximal timestamp give different results, refuting order independence for
every non-empty sample list. -/
theorem latest_timestamp_order_counterexample :
    ((get_metric envTieA).1 = some 10)
  ∧ ((get_metric envTieB).1 = some 20)
  ∧ ((get_metric envTieA).1 ≠ (get_metric envTieB).1)
  ∧ (List.Perm [Datapoint.mk 1 10, Datapoint.mk 1 20]
      [Datapoint.mk 1 20, Datapoint.mk 1 10]) :=
  ⟨get_metric_envTieA, get_metric_envTieB, get_metric_tie_ne, List.Perm.swap _ _ _⟩

/-- C3 as amended: for every non-empty sample list whose maximal timestamp is
attained by a single sample (in particular, pairwise distinct timestamps),
`get_metric` returns that sample's average rounded to two decimals, wherever
it sits in the input order; it returns `None` when the sample list is empty
or the call fails. -/
theorem get_metric_latest_unique (env : Env) (l : List Datapoint) (d : Datapoint)
    (henv : env.metricResp = .ok l) (hd : d ∈ l)
    (hmax : ∀ e ∈ l, e = d ∨ e.timestamp < d.timestamp) :
    ((get_metric env).1 = some (pyRound2 d.average))
  ∧ (∀ env2 : Env, env2.metricResp = .ok [] → (get_metric env2).1 = none)
  ∧ (∀ (env2 : Env) (e : ClientError), env2.metricResp = .error e →
      (get_metric env2).1 = none) := by
  refine ⟨?_, fun env2 h2 => get_metric_empty env2 h2,
    fun env2 e h2 => get_metric_error env2 e h2⟩
  have hne : l ≠ [] := by
    intro hnil
    rw [hnil] at hd
    cases hd
  rw [get_metric_ok env l henv hne, firstLatest_uniqueMax hd hmax]
  rfl

/-- C3 witness: a single sample of average 92 at timestamp 3 is selected and
reported as 92. -/
theorem get_metric_latest_unique_witness :
    (get_metric envSample).1 = some 92 := by
  have h := (get_metric_latest_unique envSample [Datapoint.mk 3 92] (Datapoint.mk 3 92)
    rfl (List.mem_cons_self _ _)
    (fun e he => Or.inl (List.mem_singleton.mp he))).1
  rw [h]
  norm_num [pyRound2, roundHalfEven, Rat.floor]

/-- C5: the double written `12.345` lies above the midpoint `12.3450`, so the
two-decimal rounding applied by `get_metric` reports it as `12.35`. -/
theorem status_line_rounding_12_345 :
    (pyRound2 float12_345 = 1235 / 100)
  ∧ ((get_metric envF12345).1 = some (1235 / 100)) := by
  constructor
  · norm_num [pyRound2, roundHalfEven, float12_345, Rat.floor]
  · norm_num [get_metric, envF12345, sortDatapoints, pyRound2, roundHalfEven,
      Rat.floor, float12_345]

/-- C4: in threshold-check mode, whatever the thresholds, an absent metric
value makes the program print `UNKNOWN Unable to get RDS statistics` as its
last line and exit 3, with no threshold comparison: changing the thresholds
changes nothing about the run. -/
theorem unknown_on_absent_value (opts : Options) (env : Env)
    (hl : opts.list = false) (hp : opts.printinfo = false)
    (hi : pyTruthy opts.ident = true) (hm : pyTruthy opts.metric = true)
    (hv : (get_metric env).1 = none) :
    ((main opts env).exitCode = UNKNOWN)
  ∧ ((main opts env).output.getLast? = some "UNKNOWN Unable to get RDS statistics")
  ∧ (∀ (w c : Option Rat), main { opts with warn := w, crit := c } env = main opts env) := by
  have h := main_check_none_eq opts env hl hp hi hm hv
  refine ⟨?_, ?_, ?_⟩
  · rw [h]
  · rw [h]
    show (((rdsInit opts.region opts.ident env).2.1 ++ (get_metric env).2.1) ++
      ["UNKNOWN Unable to get RDS statistics"]).getLast? = _
    rw [List.getLast?_append_of_ne_nil _ (by simp)]
    rfl
  · intro w c
    have h2 := main_check_none_eq { opts with warn := w, crit := c } env hl hp hi hm hv
    rw [h, h2]

/-- C4 witness: empty datapoints with `-w 70 -c 90` give exit 3 and the
UNKNOWN line. -/
theorem unknown_on_absent_value_witness :
    ((get_metric envNoData).1 = none)
  ∧ ((main optsCheck envNoData).exitCode = UNKNOWN)
  ∧ ((main optsCheck envNoData).output.getLast? =
      some "UNKNOWN Unable to get RDS statistics") := by
  have hv : (get_metric envNoData).1 = none := get_metric_empty envNoData rfl
  have h := unknown_on_absent_value optsCheck envNoData rfl rfl rfl rfl hv
  exact ⟨hv, h.1, h.2.1⟩

/-- C6: each of the three remote calls traps its provider error at the call
site, logs it, and yields an absent or empty result; and every run exits with
one of the four defined status codes. -/
theorem provider_errors_contained (region : String) (identifier : Option String)
    (env : Env) (e1 e2 e3 : ClientError)
    (hident : pyTruthy identifier = true)
    (h1 : env.describeIdentResp = .error e1)
    (h2 : env.describeAllResp = .error e2)
    (h3 : env.metricResp = .error e3) :
    ((rdsInit region identifier env).1.info = none)
  ∧ ((rdsInit region identifier env).2.1 = ["Error retrieving RDS instance: " ++ e1])
  ∧ (∀ s : RDSState, (get_list s env).1 = [] ∧
      ("Error listing RDS instances: " ++ e2) ∈ (get_list s env).2.1)
  ∧ ((get_metric env).1 = none)
  ∧ ((get_metric env).2.1 = ["Error retrieving metric: " ++ e3])
  ∧ (∀ (opts : Options) (env2 : Env),
      (main opts env2).exitCode = OK ∨ (main opts env2).exitCode = WARNING ∨
        (main opts env2).exitCode = CRITICAL ∨ (main opts env2).exitCode = UNKNOWN) := by
  have hr := rdsInit_error region identifier env e1 hident h1
  refine ⟨?_, ?_, ?_, get_metric_error env e3 h3, ?_,
    fun opts env2 => main_exit_defined opts env2⟩
  · rw [hr]
  · rw [hr]
  · intro s
    unfold get_list
    rw [h2]
    exact ⟨rfl, by simp⟩
  · unfold get_metric
    rw [h3]

/-- C6 witness: with all three calls failing with `AccessDenied`, the
descriptor stays unset, the error is logged, and the metric is absent. -/
theorem provider_errors_contained_witness :
    ((rdsInit "us-east-1" (some "db1") envErr).1.info = none)
  ∧ ((rdsInit "us-east-1" (some "db1") envErr).2.1 =
      ["Error retrieving RDS instance: " ++ "AccessDenied"])
  ∧ ((get_metric envErr).1 = none)
  ∧ ((get_metric envErr).2.1 = ["Error retrieving metric: " ++ "AccessDenied"]) := by
  have h := provider_errors_contained "us-east-1" (some "db1") envErr
    "AccessDenied" "AccessDenied" "AccessDenied" rfl rfl rfl rfl
  exact ⟨h.1, h.2.1, h.2.2.2.1, h.2.2.2.2.1⟩

/-- C7: `get_list` maps the configured region to the provider's descriptor
sequence, or logs and returns the empty mapping on error; list mode prints
the mapping and exits 0. -/
theorem list_mode_mapping (s : RDSState) (env : Env) :
    (∀ dbs, env.describeAllResp = .ok dbs → (get_list s env).1 = [(s.region, dbs)])
  ∧ (∀ e, env.describeAllResp = .error e → (get_list s env).1 = [] ∧
      ("Error listing RDS instances: " ++ e) ∈ (get_list s env).2.1)
  ∧ (∀ (opts : Options) (env2 : Env), opts.list = true →
      (main opts env2).exitCode = OK ∧
      toString (get_list (rdsInit opts.region opts.ident env2).1 env2).1 ∈
        (main opts env2).output) := by
  refine ⟨?_, ?_, ?_⟩
  · intro dbs h
    unfold get_list
    rw [h]
  · intro e h
    unfold get_list
    rw [h]
    exact ⟨rfl, by simp⟩
  · intro opts env2 hlist
    rw [main_list_eq opts env2 hlist]
    exact ⟨rfl, by simp⟩

/-- C7 witness: a region with two instances is printed as a one-key mapping
and list mode exits 0. -/
theorem list_mode_mapping_witness :
    ((get_list (RDSState.mk "us-east-1" none none) envSample).1 =
      [("us-east-1", ["db1-descriptor", "db2-descriptor"])])
  ∧ ((main optsList envSample).exitCode = OK) := by
  have h := list_mode_mapping (RDSState.mk "us-east-1" none none) envSample
  exact ⟨h.1 _ rfl, (h.2.2 optsList envSample rfl).1⟩

/-- C8: the three modes are selected in fixed precedence: the list flag wins
regardless of the other non-constructor flags and exits 0; otherwise the
info flag prints the fetched descriptor or a not-found message and exits 0;
otherwise the threshold check runs. -/
theorem mode_precedence (opts : Options) (env : Env) :
    (opts.list = true →
      ((main opts env).exitCode = OK
       ∧ toString (get_list (rdsInit opts.region opts.ident env).1 env).1 ∈
          (main opts env).output
       ∧ (∀ (p : Bool) (m : Option String) (w c : Option Rat),
          main { opts with printinfo := p, metric := m, warn := w, crit := c } env =
            main opts env)))
  ∧ (opts.list = false → opts.printinfo = true →
      ((main opts env).exitCode = OK
       ∧ (main opts env).output = (rdsInit opts.region opts.ident env).2.1 ++
          [match get_info (rdsInit opts.region opts.ident env).1 with
           | some info => info
           | none => "No DB instance \"" ++ pyStrOpt opts.ident ++ "\" found."]))
  ∧ (opts.list = false → opts.printinfo = false → pyTruthy opts.ident = true →
      pyTruthy opts.metric = true →
      ((∀ v, (get_metric env).1 = some v →
          (main opts env).exitCode = thresholdStatus opts.warn opts.crit v)
       ∧ ((get_metric env).1 = none → (main opts env).exitCode = UNKNOWN))) := by
  refine ⟨?_, ?_, ?_⟩
  · intro hlist
    have h := main_list_eq opts env hlist
    refine ⟨by rw [h], by rw [h]; simp, ?_⟩
    intro p m w c
    rw [h, main_list_eq { opts with printinfo := p, metric := m, warn := w, crit := c }
      env hlist]
  · intro hl hp
    have h := main_info_eq opts env hl hp
    exact ⟨by rw [h], by rw [h]⟩
  · intro hl hp hi hm
    constructor
    · intro v hv
      rw [main_check_some_eq opts env v hl hp hi hm hv]
    · intro hv
      rw [main_check_none_eq opts env hl hp hi hm hv]

/-- C8 witness: list mode exits 0 even with the info flag's inputs set; info
mode exits 0; check mode exits with the threshold status. -/
theorem mode_precedence_witness :
    ((main optsList envSample).exitCode = OK)
  ∧ ((main optsInfo envSample).exitCode = OK)
  ∧ ((main optsCheck envSample).exitCode = thresholdStatus optsCheck.warn optsCheck.crit 92) := by
  have hv : (get_metric envSample).1 = some 92 := by
    norm_num [get_metric, envSample, sortDatapoints, pyRound2, roundHalfEven, Rat.floor]
  exact ⟨((mode_precedence optsList envSample).1 rfl).1,
    ((mode_precedence optsInfo envSample).2.1 rfl rfl).1,
    ((mode_precedence optsCheck envSample).2.2 rfl rfl rfl rfl).1 92 hv⟩

/-- C9: with ties at the maximal timestamp, `get_metric` returns the rounded
average of the tied sample appearing first in the provider's order (the
descending sort is stable), so the result depends on the input ordering. -/
theorem tie_resolved_by_input_order (env : Env) (l₁ l₂ : List Datapoint) (d : Datapoint)
    (henv : env.metricResp = .ok (l₁ ++ d :: l₂))
    (hmax : ∀ e ∈ l₂, e.timestamp ≤ d.timestamp)
    (hbefore : ∀ e ∈ l₁, e.timestamp < d.timestamp) :
    ((get_metric env).1 = some (pyRound2 d.average))
  ∧ ((get_metric envTieA).1 = some 10)
  ∧ ((get_metric envTieB).1 = some 20)
  ∧ ((get_metric envTieA).1 ≠ (get_metric envTieB).1) := by
  refine ⟨?_, get_metric_envTieA, get_metric_envTieB, get_metric_tie_ne⟩
  have hne : l₁ ++ d :: l₂ ≠ [] := by simp
  rw [get_metric_ok env _ henv hne, firstLatest_firstMax l₁ l₂ d hmax hbefore]
  rfl

/-- C9 witness: timestamps 0, 1, 1 with averages 5, 10, 20: the first of the
tied samples (average 10) is returned. -/
theorem tie_resolved_by_input_order_witness :
    (get_metric envC9).1 = some 10 := by
  have h := (tie_resolved_by_input_order envC9 [Datapoint.mk 0 5]
    [Datapoint.mk 1 20] (Datapoint.mk 1 10) rfl (by decide) (by decide)).1
  rw [h]
  norm_num [pyRound2, roundHalfEven, Rat.floor]

/-- C10: the usage error of argparse exits with code 2, the same number as the
CRITICAL status, so the exit code alone cannot distinguish a usage error from
a CRITICAL alert. -/
theorem usage_exit_matches_critical (opts : Options) (env : Env)
    (hl : opts.list = false) (hp : opts.printinfo = false)
    (hmiss : pyTruthy opts.ident = false ∨ pyTruthy opts.metric = false) :
    ((main opts env).exitCode = parserErrorExit)
  ∧ (parserErrorExit = CRITICAL)
  ∧ (CRITICAL = 2) := by
  refine ⟨?_, rfl, rfl⟩
  rcases hmiss with h | h
  · rw [main_noident_eq opts env hl hp h]
  · by_cases hi : pyTruthy opts.ident = true
    · rw [main_nometric_eq opts env hl hp hi h]
    · have hi2 : pyTruthy opts.ident = false := by
        cases hh : pyTruthy opts.ident
        · rfl
        · exact absurd hh hi
      rw [main_noident_eq opts env hl hp hi2]

/-- C10 witness: a bare invocation exits 2, the CRITICAL code. -/
theorem usage_exit_matches_critical_witness :
    ((main optsBare envSample).exitCode = parserErrorExit)
  ∧ (parserErrorExit = CRITICAL) := by
  have h := usage_exit_matches_critical optsBare envSample rfl rfl (Or.inl rfl)
  exact ⟨h.1, h.2.1⟩

end CheckAwsRds
